import Mathlib

/-!
Verification of the Geospatial Incident Location Resolver of the
koruanalytics-site repository.  Every definition below is a shallow
embedding of a function of the repository, translated from its Python
source (floating point numbers are modelled by exact rationals, SQL
tables by lists of rows, and network calls by explicit response
functions).  The theorems settle the frozen claims about the resolver.
-/

set_option maxHeartbeats 1000000

namespace Koru

/-- Python truthiness of an optional float: in `if llm_lat and llm_lon`
both `None` and `0.0` are falsy. -/
def truthyF : Option ℚ → Bool
  | none => false
  | some x => x != 0

/-- Python truthiness of an optional string: `None` and `""` are falsy. -/
def truthyS : Option String → Bool
  | none => false
  | some s => s != ""

/-- Whitespace as recognized by Python `str.strip()` and `str.split()`
(space, tab, newline, carriage return). -/
def isWs (c : Char) : Bool := c == ' ' || c == '\t' || c == '\n' || c == '\r'

/-- Python `str.lower()` (character-wise; agrees with Python on the
ASCII range the claims exercise). -/
def pyLower (s : String) : String := String.mk (s.data.map Char.toLower)

/-- Python `str.strip()`: drop leading and trailing whitespace. -/
def pyStrip (s : String) : String :=
  String.mk (((s.data.dropWhile fun c => isWs c).reverse.dropWhile fun c => isWs c).reverse)

/-- `GeocodingService.normalize_text`: lowercase and strip surrounding
whitespace; `None` and the empty string map to `""`. -/
def normalize_text : Option String → String
  | none => ""
  | some s => if s = "" then "" else pyStrip (pyLower s)

/-- One row of the Peru gazetteer as loaded by
`GeocodingService._load_gazetteer` (adm1 = departamento, adm2 =
provincia, adm3 = distrito). -/
structure GazRow where
  adm1_name : String
  adm2_name : String
  adm3_name : String
  lat : ℚ
  lon : ℚ
deriving DecidableEq

/-- The `distrito_norm` search column: `adm3_name.str.lower().str.strip()`. -/
def GazRow.distrito_norm (r : GazRow) : String := pyStrip (pyLower r.adm3_name)

/-- The `provincia_norm` search column. -/
def GazRow.provincia_norm (r : GazRow) : String := pyStrip (pyLower r.adm2_name)

/-- The `departamento_norm` search column. -/
def GazRow.departamento_norm (r : GazRow) : String := pyStrip (pyLower r.adm1_name)

/-- `GeocodingService._is_adm4`: true when `ubicacion_especifica` is a
non-empty string whose normalization is non-empty and differs from the
normalized distrito, provincia and departamento names. -/
def is_adm4 (ubicacion_especifica distrito provincia departamento : Option String) : Bool :=
  if !truthyS ubicacion_especifica then false
  else
    let u := normalize_text ubicacion_especifica
    (u != normalize_text distrito) && (u != normalize_text provincia)
      && (u != normalize_text departamento) && (u != "")

/-- The `nivel_geo` provenance tags that `geocode_incident` can emit. -/
inductive Nivel
  | especifico
  | azure_maps
  | distrito
  | provincia
  | departamento
  | estimado
deriving DecidableEq

/-- The quadruple `(lat, lon, nivel_geo, adm4_name)` returned by
`GeocodingService.geocode_incident`. -/
structure GeoResult where
  lat : Option ℚ
  lon : Option ℚ
  nivel : Option Nivel
  adm4 : Option String
deriving DecidableEq

/-- The collaborators `geocode_incident` consults: the loaded gazetteer
and the Azure Maps geocoder.  `azure_available` models the
`AZURE_MAPS_AVAILABLE` import flag; `azure` models
`geocode_address_azure(address, departamento)`, returning coordinates or
nothing. -/
structure GeoEnv where
  gazetteer : List GazRow
  azure_available : Bool
  azure : String → Option String → Option (ℚ × ℚ)

/-- Strategy 3 lookup: pandas filter on the three normalized columns,
`iloc[0]` takes the first matching row. -/
def gazMatchDistrito (g : List GazRow) (d p dep : String) : Option GazRow :=
  g.find? fun r =>
    r.distrito_norm == d && r.provincia_norm == p && r.departamento_norm == dep

/-- Strategy 4 lookup: provincia capital, distrito name = provincia name. -/
def gazMatchProvincia (g : List GazRow) (p dep : String) : Option GazRow :=
  g.find? fun r =>
    r.distrito_norm == p && r.provincia_norm == p && r.departamento_norm == dep

/-- Strategy 5 lookup: departamento capital, distrito name = departamento name. -/
def gazMatchDepartamento (g : List GazRow) (dep : String) : Option GazRow :=
  g.find? fun r => r.distrito_norm == dep && r.departamento_norm == dep

/-- `GeocodingService.geocode_incident`, the seven-state priority chain:
especifico, azure_maps, distrito, provincia, departamento, estimado,
and the all-null result. -/
def geocode_incident (env : GeoEnv)
    (departamento provincia distrito ubicacion_especifica : Option String)
    (llm_lat llm_lon : Option ℚ) : GeoResult :=
  if env.gazetteer.isEmpty then
    if truthyF llm_lat && truthyF llm_lon then
      let adm4 := if is_adm4 ubicacion_especifica distrito provincia departamento
        then ubicacion_especifica else none
      let nivel := if truthyS adm4 then Nivel.especifico else Nivel.estimado
      { lat := llm_lat, lon := llm_lon, nivel := some nivel, adm4 := adm4 }
    else
      { lat := none, lon := none, nivel := none, adm4 := none }
  else
    let depto_norm := normalize_text departamento
    let prov_norm := normalize_text provincia
    let dist_norm := normalize_text distrito
    if truthyF llm_lat && truthyF llm_lon
        && is_adm4 ubicacion_especifica distrito provincia departamento then
      { lat := llm_lat, lon := llm_lon, nivel := some Nivel.especifico,
        adm4 := ubicacion_especifica }
    else
      match (if env.azure_available
              && is_adm4 ubicacion_especifica distrito provincia departamento then
             env.azure (ubicacion_especifica.getD "") departamento else none) with
      | some q =>
        { lat := some q.1, lon := some q.2, nivel := some Nivel.azure_maps,
          adm4 := ubicacion_especifica }
      | none =>
        match (if dist_norm != "" && prov_norm != "" && depto_norm != "" then
               gazMatchDistrito env.gazetteer dist_norm prov_norm depto_norm
               else none) with
        | some r =>
          { lat := some r.lat, lon := some r.lon, nivel := some Nivel.distrito,
            adm4 := none }
        | none =>
          match (if prov_norm != "" && depto_norm != "" then
                 gazMatchProvincia env.gazetteer prov_norm depto_norm
                 else none) with
          | some r =>
            { lat := some r.lat, lon := some r.lon, nivel := some Nivel.provincia,
              adm4 := none }
          | none =>
            match (if depto_norm != "" then
                   gazMatchDepartamento env.gazetteer depto_norm else none) with
            | some r =>
              { lat := some r.lat, lon := some r.lon,
                nivel := some Nivel.departamento, adm4 := none }
            | none =>
              if truthyF llm_lat && truthyF llm_lon then
                { lat := llm_lat, lon := llm_lon, nivel := some Nivel.estimado,
                  adm4 := none }
              else
                { lat := none, lon := none, nivel := none, adm4 := none }

/-- Outcome of one HTTP attempt inside
`AzureMapsGeocoder.geocode_address`: a JSON body whose `results` array
holds positions with optional coordinates, a network timeout, an HTTP
429, any other HTTP error, or any other exception. -/
inductive AzResp
  | success (results : List (Option ℚ × Option ℚ))
  | timeout
  | http429
  | httpError
  | otherExc
deriving DecidableEq

/-- `AZURE_MAPS_MAX_RETRIES` from `azure_maps_geocoder.py`. -/
def AZURE_MAPS_MAX_RETRIES : ℕ := 2

/-- The retry loop `for attempt in range(AZURE_MAPS_MAX_RETRIES + 1)` of
`geocode_address`.  `resp n` is the outcome of attempt `n`; the result is
the returned value together with the list of sleep durations performed
(backoff `0.5 * (attempt + 1)` after a timeout, `1` after HTTP 429). -/
def azureLoop (resp : ℕ → AzResp) : ℕ → ℕ → List ℚ → Option (ℚ × ℚ) × List ℚ
  | _, 0, sleeps => (none, sleeps)
  | attempt, fuel + 1, sleeps =>
    match resp attempt with
    | .success results =>
      match results with
      | [] => (none, sleeps)
      | pos :: _ =>
        if truthyF pos.1 && truthyF pos.2 then
          (some (pos.1.getD 0, pos.2.getD 0), sleeps)
        else (none, sleeps)
    | .timeout =>
      if attempt < AZURE_MAPS_MAX_RETRIES then
        azureLoop resp (attempt + 1) fuel (sleeps ++ [(1 / 2 : ℚ) * (attempt + 1)])
      else (none, sleeps)
    | .http429 =>
      if attempt < AZURE_MAPS_MAX_RETRIES then
        azureLoop resp (attempt + 1) fuel (sleeps ++ [1])
      else (none, sleeps ++ [1])
    | .httpError => (none, sleeps)
    | .otherExc => (none, sleeps)

/-- `AzureMapsGeocoder.geocode_address`: returns immediately when no API
key is configured, otherwise runs the retry loop over at most
`AZURE_MAPS_MAX_RETRIES + 1` attempts. -/
def geocode_address (api_key : Option String) (resp : ℕ → AzResp) :
    Option (ℚ × ℚ) × List ℚ :=
  if !truthyS api_key then (none, [])
  else azureLoop resp 0 (AZURE_MAPS_MAX_RETRIES + 1) []

/-- Helper of `pySplit`: walk the characters, `cur` holds the current
token reversed. -/
def pySplitAux : List Char → List Char → List String
  | [], cur => if cur.isEmpty then [] else [String.mk cur.reverse]
  | c :: rest, cur =>
    if isWs c then
      if cur.isEmpty then pySplitAux rest []
      else String.mk cur.reverse :: pySplitAux rest []
    else pySplitAux rest (c :: cur)

/-- Python `str.split()` with no argument: split on runs of whitespace,
discarding empty pieces. -/
def pySplit (s : String) : List String := pySplitAux s.data []

/-- Python `round(x, 4)`: round to four decimal places.  (Half-to-even
versus half-up differences cannot arise: every value this is applied to
in `score_candidate` is an exact multiple of `0.05`.) -/
def round4 (q : ℚ) : ℚ := ((⌊q * 10000 + 1 / 2⌋ : ℤ) : ℚ) / 10000

/-- `score_candidate` from `scripts/run_location_candidates.py`: base by
admin level (dict default 0.20), length bonus by token count (dict
default 0.10), a 0.15 boost for matches from the location text, capped
at 1.0 and rounded to 4 decimals. -/
def score_candidate (matched_ngram : String) (adm_level : ℕ)
    (in_location_text : Bool) : ℚ :=
  let n_tokens := (pySplit matched_ngram).length
  let base : ℚ :=
    if adm_level = 1 then 0.20 else if adm_level = 2 then 0.35
    else if adm_level = 3 then 0.50 else 0.20
  let length_bonus : ℚ :=
    if n_tokens = 1 then 0.10 else if n_tokens = 2 then 0.20
    else if n_tokens = 3 then 0.30 else 0.10
  let loc_boost : ℚ := if in_location_text then 0.15 else 0
  round4 (min 1 (base + length_bonus + loc_boost))

/-- The base table `{1: 0.20, 2: 0.35, 3: 0.50}[admin_level]` as written
in the specification (only ever applied to levels 1, 2, 3). -/
def specBase (lvl : ℕ) : ℚ := if lvl = 1 then 0.20 else if lvl = 2 then 0.35 else 0.50

/-- The length-bonus table `{1: 0.10, 2: 0.20, 3: 0.30}[n_tokens]` as
written in the specification (only ever applied to 1, 2, 3 tokens). -/
def specLengthBonus (n : ℕ) : ℚ := if n = 1 then 0.10 else if n = 2 then 0.20 else 0.30

/-- One row of `stg_incident_place_candidates` as inserted by
`scripts/run_location_candidates.py`. -/
structure StgCand where
  ingest_run_id : String
  incident_id : String
  matched_text_norm : String
  matched_tokens : ℤ
  candidate_place_id : String
  candidate_adm1 : Option String
  candidate_adm2 : Option String
  candidate_adm3 : Option String
  candidate_lat : Option ℚ
  candidate_lon : Option ℚ
  method : String
  score : ℚ
deriving DecidableEq

/-- The window ordering `ORDER BY score DESC, matched_tokens DESC,
candidate_place_id ASC` of `run_geo_resolve_incidents.py`: `a` sorts
strictly before `b`. -/
def rankBefore (a b : StgCand) : Prop :=
  b.score < a.score
    ∨ (b.score = a.score
        ∧ (b.matched_tokens < a.matched_tokens
            ∨ (b.matched_tokens = a.matched_tokens
                ∧ a.candidate_place_id < b.candidate_place_id)))

instance (a b : StgCand) : Decidable (rankBefore a b) := by
  unfold rankBefore; infer_instance

/-- `ROW_NUMBER() OVER (PARTITION BY ingest_run_id, incident_id ORDER BY
score DESC, matched_tokens DESC, candidate_place_id ASC) = 1`: within a
partition `g`, the row holding rank 1 is the one that sorts before every
other row of the partition. -/
def isPrimary (g : List StgCand) (r : StgCand) : Prop :=
  r ∈ g ∧ ∀ s ∈ g, s ≠ r → rankBefore r s

instance (g : List StgCand) (r : StgCand) : Decidable (isPrimary g r) := by
  unfold isPrimary; infer_instance

/-- One row of `map_incident_place` as inserted by
`run_geo_resolve_incidents.py`. -/
structure MapRow where
  ingest_run_id : String
  incident_id : String
  place_id : String
  adm1 : Option String
  adm2 : Option String
  adm3 : Option String
  lat : Option ℚ
  lon : Option ℚ
  matched_text_norm : String
  matched_tokens : ℤ
  method : String
  score : ℚ
  is_primary : Bool
deriving DecidableEq

/-- The partition of a candidate row: all rows of the table with its
`(ingest_run_id, incident_id)`. -/
def partitionOf (tbl : List StgCand) (c : StgCand) : List StgCand :=
  tbl.filter fun s =>
    s.ingest_run_id == c.ingest_run_id && s.incident_id == c.incident_id

/-- The `INSERT INTO map_incident_place SELECT ... FROM
stg_incident_place_candidates` of `run_geo_resolve_incidents.py`: each
candidate row of the run becomes a map row, with `is_primary` marking
the rank-1 row of its partition. -/
def resolveRows (cands : List StgCand) : List MapRow :=
  cands.map fun c =>
    { ingest_run_id := c.ingest_run_id
      incident_id := c.incident_id
      place_id := c.candidate_place_id
      adm1 := c.candidate_adm1
      adm2 := c.candidate_adm2
      adm3 := c.candidate_adm3
      lat := c.candidate_lat
      lon := c.candidate_lon
      matched_text_norm := c.matched_text_norm
      matched_tokens := c.matched_tokens
      method := c.method
      score := c.score
      is_primary := decide (isPrimary (partitionOf cands c) c) }

/-- The candidate and mapping tables of the warehouse that the two GEO
scripts rewrite per run. -/
structure DwState where
  cands : List StgCand
  maps : List MapRow
deriving DecidableEq

/-- `scripts/run_location_candidates.py` main loop for one run: `DELETE
FROM stg_incident_place_candidates WHERE ingest_run_id = run_id`, then
insert the generated rows `gen`. -/
def run_location_candidates_step (runId : String) (gen : List StgCand)
    (st : DwState) : DwState :=
  { st with cands := st.cands.filter (fun r => r.ingest_run_id != runId) ++ gen }

/-- `scripts/run_geo_resolve_incidents.py` main body for one run:
`DELETE FROM map_incident_place WHERE ingest_run_id = run_id`, then
insert the resolution of the candidate rows of that run. -/
def run_geo_resolve_step (runId : String) (st : DwState) : DwState :=
  let runCands := st.cands.filter fun r => r.ingest_run_id == runId
  { st with maps := st.maps.filter (fun r => r.ingest_run_id != runId) ++ resolveRows runCands }

/-- The candidate-generation plus resolution pipeline for one run. -/
def geo_pipeline (runId : String) (gen : List StgCand) (st : DwState) : DwState :=
  run_geo_resolve_step runId (run_location_candidates_step runId gen st)

/-- Descending sort of the candidate scores of one incident, modelling
`ORDER BY score DESC` of the ambiguity query in
`compute_run_quality_metrics.py`. -/
def sortScoresDesc (scores : List ℚ) : List ℚ :=
  scores.insertionSort (· ≥ ·)

/-- The pair `(s1, s2)` of the ambiguity query: the scores at row
numbers 1 and 2 of the descending ranking, absent when there are fewer
rows. -/
def s1s2 (scores : List ℚ) : Option ℚ × Option ℚ :=
  ((sortScoresDesc scores).head?, (sortScoresDesc scores)[1]?)

/-- The ambiguity flag of `compute_run_quality_metrics.py`: with
`gap = s1 - COALESCE(s2, 0)`, an incident is ambiguous when `s2` is
present and `gap <= amb_gap`. -/
def ambiguousFlag (scores : List ℚ) (amb_gap : ℚ) : Bool :=
  match s1s2 scores with
  | (some a, some b) => decide (a - b ≤ amb_gap)
  | _ => false

/-- `COALESCE(a, b)` of DuckDB on two nullable values. -/
def coalesce {α : Type} : Option α → Option α → Option α
  | some x, _ => some x
  | none, b => b

/-- One row of `fct_incidents` restricted to the overridable columns
that `build_fct_incidents_curated.py` rewrites (plus the incident key). -/
structure FactRow where
  incident_id : String
  incident_type : Option String
  confidence : Option ℚ
  location_text : Option String
  title : Option String
  body : Option String
  place_id : Option String
  adm1 : Option String
  adm2 : Option String
  adm3 : Option String
  lat : Option ℚ
  lon : Option ℚ
deriving DecidableEq

/-- The override columns of `curation_incident_overrides` consulted by
`build_fct_incidents_curated.py`. -/
structure OverrideCols where
  override_incident_type : Option String
  override_confidence : Option ℚ
  override_location_text : Option String
  override_title : Option String
  override_body : Option String
  override_place_id : Option String
  override_adm1 : Option String
  override_adm2 : Option String
  override_adm3 : Option String
  override_lat : Option ℚ
  override_lon : Option ℚ
deriving DecidableEq

/-- The `SELECT f.* REPLACE (COALESCE(o.override_x, f.x) AS x) FROM
fct_incidents f LEFT JOIN curation_incident_overrides o` of
`build_fct_incidents_curated.py`; `o = none` is the LEFT JOIN miss, in
which every override column is NULL and the row is copied unchanged. -/
def build_curated_row (f : FactRow) (o : Option OverrideCols) : FactRow :=
  match o with
  | none => f
  | some ov =>
    { f with
      incident_type := coalesce ov.override_incident_type f.incident_type
      confidence := coalesce ov.override_confidence f.confidence
      location_text := coalesce ov.override_location_text f.location_text
      title := coalesce ov.override_title f.title
      body := coalesce ov.override_body f.body
      place_id := coalesce ov.override_place_id f.place_id
      adm1 := coalesce ov.override_adm1 f.adm1
      adm2 := coalesce ov.override_adm2 f.adm2
      adm3 := coalesce ov.override_adm3 f.adm3
      lat := coalesce ov.override_lat f.lat
      lon := coalesce ov.override_lon f.lon }

/-- The payload columns written by every upsert of
`scripts/import_overrides_from_csv.py` (override values plus review
workflow fields). -/
structure OverrideFields where
  override_incident_type : Option String
  override_confidence : Option ℚ
  override_location_text : Option String
  override_place_id : Option String
  override_adm1 : Option String
  override_adm2 : Option String
  override_adm3 : Option String
  override_lat : Option ℚ
  override_lon : Option ℚ
  override_title : Option String
  override_body : Option String
  review_status : String
  review_notes : Option String
deriving DecidableEq

/-- One stored row of `curation_incident_overrides` (primary key
`incident_id`). -/
structure OverrideStoreRow where
  incident_id : String
  fields : OverrideFields
  updated_by : String
  created_by : String
deriving DecidableEq

/-- One prepared CSV row of `import_overrides_from_csv.py` after
`_norm_empty` and numeric casting: a missing or empty `incident_id`
became `none`. -/
structure CsvOverrideRow where
  incident_id : Option String
  fields : OverrideFields
deriving DecidableEq

/-- The `UPSERT_SQL` statement of `import_overrides_from_csv.py`:
`INSERT ... ON CONFLICT (incident_id) DO UPDATE SET` every override and
review column plus `updated_by` (but not `created_by`). -/
def upsert_override (user : String) (tbl : List OverrideStoreRow)
    (r : CsvOverrideRow) : List OverrideStoreRow :=
  match r.incident_id with
  | none => tbl
  | some iid =>
    if tbl.any (fun o => o.incident_id == iid) then
      tbl.map fun o =>
        if o.incident_id == iid then
          { o with fields := r.fields, updated_by := user }
        else o
    else
      tbl ++ [{ incident_id := iid, fields := r.fields,
                updated_by := user, created_by := user }]

/-- The write loop of `import_overrides_from_csv.py` main: rows with a
falsy `incident_id` are skipped, every other row is upserted.  The
gazetteer is not consulted anywhere in the script. -/
def run_overrides_csv (user : String) (rows : List CsvOverrideRow)
    (tbl : List OverrideStoreRow) : List OverrideStoreRow :=
  rows.foldl (upsert_override user) tbl

/-- Step 2 of `scripts/check_curation_run.py`: count the stored
overrides whose non-null `override_place_id` has no match in
`dim_places_pe`; a positive count makes the script return exit code 2. -/
def check_overrides_place (gazPlaceIds : List String)
    (tbl : List OverrideStoreRow) : ℕ :=
  let missing := tbl.filter fun o =>
    match o.fields.override_place_id with
    | some p => !(gazPlaceIds.contains p)
    | none => false
  if missing.length ≠ 0 then 2 else 0

/-- Precondition of resolver state 1 (especifico): the upstream LLM
coordinate is present (truthy) and the specific place name is a genuine
ADM4 name. -/
def state1Fires (dep prov dist ubic : Option String) (la lo : Option ℚ) : Bool :=
  truthyF la && truthyF lo && is_adm4 ubic dist prov dep

/-- Precondition of resolver state 2 (azure_maps): the geocoder is
available, a genuine ADM4 name exists, and the external geocoder
returns a result for it. -/
def state2Fires (env : GeoEnv) (dep prov dist ubic : Option String) : Bool :=
  env.azure_available && is_adm4 ubic dist prov dep
    && (env.azure (ubic.getD "") dep).isSome

/-- Precondition of resolver state 3 (distrito): all three names are
non-empty and the gazetteer has an exact (distrito, provincia,
departamento) match. -/
def state3Fires (env : GeoEnv) (dep prov dist : Option String) : Bool :=
  (normalize_text dist != "" && normalize_text prov != ""
      && normalize_text dep != "")
    && (gazMatchDistrito env.gazetteer (normalize_text dist)
        (normalize_text prov) (normalize_text dep)).isSome

/-- Precondition of resolver state 4 (provincia capital). -/
def state4Fires (env : GeoEnv) (dep prov : Option String) : Bool :=
  (normalize_text prov != "" && normalize_text dep != "")
    && (gazMatchProvincia env.gazetteer (normalize_text prov)
        (normalize_text dep)).isSome

/-- Precondition of resolver state 5 (departamento capital). -/
def state5Fires (env : GeoEnv) (dep : Option String) : Bool :=
  (normalize_text dep != "")
    && (gazMatchDepartamento env.gazetteer (normalize_text dep)).isSome

/-- Precondition of resolver state 6 (estimado): a truthy upstream
coordinate. -/
def state6Fires (la lo : Option ℚ) : Bool :=
  truthyF la && truthyF lo

/-- A one-row gazetteer used as concrete input in witnesses and
counterexamples (the Lima departamento capital row). -/
def gazLima : List GazRow :=
  [{ adm1_name := "Lima", adm2_name := "Lima", adm3_name := "Lima",
     lat := -12, lon := -77 }]

/-- A concrete environment: the Lima gazetteer, Azure Maps unavailable. -/
def envLima : GeoEnv :=
  { gazetteer := gazLima, azure_available := false, azure := fun _ _ => none }

/-- A concrete candidate row used in witnesses. -/
def candA : StgCand :=
  { ingest_run_id := "run-1", incident_id := "inc-1",
    matched_text_norm := "comas", matched_tokens := 1,
    candidate_place_id := "PE150110",
    candidate_adm1 := some "Lima", candidate_adm2 := some "Lima",
    candidate_adm3 := some "Comas",
    candidate_lat := some (-11.93), candidate_lon := some (-77.04),
    method := "ngram_1_title", score := 0.6 }

/-- Concrete override payload referencing a place id absent from the
gazetteer, used for the write-time referential-integrity claim. -/
def fieldsX : OverrideFields :=
  { override_incident_type := none, override_confidence := none,
    override_location_text := none, override_place_id := some "XX-999",
    override_adm1 := none, override_adm2 := none, override_adm3 := none,
    override_lat := none, override_lon := none,
    override_title := none, override_body := none,
    review_status := "PENDING", review_notes := none }

/-- The CSV row carrying `fieldsX`. -/
def csvRowX : CsvOverrideRow := { incident_id := some "inc-1", fields := fieldsX }

/-- A concrete gazetteer place-id list that does not contain `XX-999`. -/
def gazIdsX : List String := ["PE150101", "PE040101"]

/-- A response schedule that times out on the first two attempts and
answers on the third, used as concrete input in witnesses. -/
def respTimeoutTwice : ℕ → AzResp :=
  fun n => if n < 2 then .timeout else .success [(some (-12), some (-77))]

/-- A response schedule whose first answer carries latitude 0.0. -/
def respZeroLat : ℕ → AzResp := fun _ => .success [(some 0, some 5)]

/-- If state 2 does not fire, the strategy-2 scrutinee evaluates to
none. -/
lemma azure_scrut_none (env : GeoEnv) (dep prov dist ubic : Option String)
    (h : state2Fires env dep prov dist ubic = false) :
    (if (env.azure_available && is_adm4 ubic dist prov dep) = true
      then env.azure (ubic.getD "") dep else none) = none := by
  unfold state2Fires at h
  by_cases hA : (env.azure_available && is_adm4 ubic dist prov dep) = true
  · rw [if_pos hA]
    rw [hA, Bool.true_and] at h
    cases hq : env.azure (ubic.getD "") dep with
    | none => rfl
    | some q => rw [hq] at h; simp at h
  · rw [if_neg hA]

/-- If state 3 does not fire, the strategy-3 scrutinee evaluates to
none. -/
lemma distrito_scrut_none (env : GeoEnv) (dep prov dist : Option String)
    (h : state3Fires env dep prov dist = false) :
    (if (normalize_text dist != "" && normalize_text prov != ""
        && normalize_text dep != "") = true
      then gazMatchDistrito env.gazetteer (normalize_text dist)
        (normalize_text prov) (normalize_text dep) else none) = none := by
  unfold state3Fires at h
  by_cases hc : (normalize_text dist != "" && normalize_text prov != ""
      && normalize_text dep != "") = true
  · rw [if_pos hc]
    rw [hc, Bool.true_and] at h
    cases hq : gazMatchDistrito env.gazetteer (normalize_text dist)
        (normalize_text prov) (normalize_text dep) with
    | none => rfl
    | some r => rw [hq] at h; simp at h
  · rw [if_neg hc]

/-- If state 4 does not fire, the strategy-4 scrutinee evaluates to
none. -/
lemma provincia_scrut_none (env : GeoEnv) (dep prov : Option String)
    (h : state4Fires env dep prov = false) :
    (if (normalize_text prov != "" && normalize_text dep != "") = true
      then gazMatchProvincia env.gazetteer (normalize_text prov)
        (normalize_text dep) else none) = none := by
  unfold state4Fires at h
  by_cases hc : (normalize_text prov != "" && normalize_text dep != "") = true
  · rw [if_pos hc]
    rw [hc, Bool.true_and] at h
    cases hq : gazMatchProvincia env.gazetteer (normalize_text prov)
        (normalize_text dep) with
    | none => rfl
    | some r => rw [hq] at h; simp at h
  · rw [if_neg hc]

/-- If state 5 does not fire, the strategy-5 scrutinee evaluates to
none. -/
lemma departamento_scrut_none (env : GeoEnv) (dep : Option String)
    (h : state5Fires env dep = false) :
    (if (normalize_text dep != "") = true
      then gazMatchDepartamento env.gazetteer (normalize_text dep)
      else none) = none := by
  unfold state5Fires at h
  by_cases hc : (normalize_text dep != "") = true
  · rw [if_pos hc]
    rw [hc, Bool.true_and] at h
    cases hq : gazMatchDepartamento env.gazetteer (normalize_text dep) with
    | none => rfl
    | some r => rw [hq] at h; simp at h
  · rw [if_neg hc]

/-- C1: with a loaded gazetteer, `geocode_incident` is a strict
short-circuiting priority chain — it returns the output of the first
state whose precondition holds (especifico, azure_maps, distrito,
provincia, departamento capital, estimado, then the all-null result),
and the output never depends on any lower-priority state. -/
theorem C1_priority_chain (env : GeoEnv)
    (dep prov dist ubic : Option String) (la lo : Option ℚ)
    (hgaz : env.gazetteer ≠ []) :
    (state1Fires dep prov dist ubic la lo = true →
      geocode_incident env dep prov dist ubic la lo
        = { lat := la, lon := lo, nivel := some Nivel.especifico, adm4 := ubic })
    ∧ (state1Fires dep prov dist ubic la lo = false →
      state2Fires env dep prov dist ubic = true →
      ∀ q, env.azure (ubic.getD "") dep = some q →
      geocode_incident env dep prov dist ubic la lo
        = { lat := some q.1, lon := some q.2, nivel := some Nivel.azure_maps,
            adm4 := ubic })
    ∧ (state1Fires dep prov dist ubic la lo = false →
      state2Fires env dep prov dist ubic = false →
      state3Fires env dep prov dist = true →
      ∀ r, gazMatchDistrito env.gazetteer (normalize_text dist)
          (normalize_text prov) (normalize_text dep) = some r →
      geocode_incident env dep prov dist ubic la lo
        = { lat := some r.lat, lon := some r.lon, nivel := some Nivel.distrito,
            adm4 := none })
    ∧ (state1Fires dep prov dist ubic la lo = false →
      state2Fires env dep prov dist ubic = false →
      state3Fires env dep prov dist = false →
      state4Fires env dep prov = true →
      ∀ r, gazMatchProvincia env.gazetteer (normalize_text prov)
          (normalize_text dep) = some r →
      geocode_incident env dep prov dist ubic la lo
        = { lat := some r.lat, lon := some r.lon, nivel := some Nivel.provincia,
            adm4 := none })
    ∧ (state1Fires dep prov dist ubic la lo = false →
      state2Fires env dep prov dist ubic = false →
      state3Fires env dep prov dist = false →
      state4Fires env dep prov = false →
      state5Fires env dep = true →
      ∀ r, gazMatchDepartamento env.gazetteer (normalize_text dep) = some r →
      geocode_incident env dep prov dist ubic la lo
        = { lat := some r.lat, lon := some r.lon,
            nivel := some Nivel.departamento, adm4 := none })
    ∧ (state1Fires dep prov dist ubic la lo = false →
      state2Fires env dep prov dist ubic = false →
      state3Fires env dep prov dist = false →
      state4Fires env dep prov = false →
      state5Fires env dep = false →
      state6Fires la lo = true →
      geocode_incident env dep prov dist ubic la lo
        = { lat := la, lon := lo, nivel := some Nivel.estimado, adm4 := none })
    ∧ (state1Fires dep prov dist ubic la lo = false →
      state2Fires env dep prov dist ubic = false →
      state3Fires env dep prov dist = false →
      state4Fires env dep prov = false →
      state5Fires env dep = false →
      state6Fires la lo = false →
      geocode_incident env dep prov dist ubic la lo
        = { lat := none, lon := none, nivel := none, adm4 := none }) := by
  have hne : env.gazetteer.isEmpty = false := List.isEmpty_eq_false.2 hgaz
  refine ⟨?_, ?_, ?_, ?_, ?_, ?_, ?_⟩
  · intro h1
    unfold state1Fires at h1
    unfold geocode_incident
    rw [hne]
    simp only [Bool.false_eq_true, if_false]
    rw [if_pos h1]
  · intro h1 h2 q hq
    unfold state1Fires at h1
    unfold geocode_incident
    rw [hne]
    simp only [Bool.false_eq_true, if_false]
    rw [if_neg (ne_true_of_eq_false h1)]
    have hA : (env.azure_available && is_adm4 ubic dist prov dep) = true := by
      unfold state2Fires at h2
      rw [Bool.and_eq_true] at h2
      exact h2.1
    rw [if_pos hA, hq]
  · intro h1 h2 h3 r hr
    unfold state1Fires at h1
    unfold geocode_incident
    rw [hne]
    simp only [Bool.false_eq_true, if_false]
    rw [if_neg (ne_true_of_eq_false h1)]
    rw [azure_scrut_none env dep prov dist ubic h2]
    have hc : (normalize_text dist != "" && normalize_text prov != ""
        && normalize_text dep != "") = true := by
      unfold state3Fires at h3
      rw [Bool.and_eq_true] at h3
      exact h3.1
    rw [if_pos hc, hr]
  · intro h1 h2 h3 h4 r hr
    unfold state1Fires at h1
    unfold geocode_incident
    rw [hne]
    simp only [Bool.false_eq_true, if_false]
    rw [if_neg (ne_true_of_eq_false h1)]
    rw [azure_scrut_none env dep prov dist ubic h2]
    rw [distrito_scrut_none env dep prov dist h3]
    have hc : (normalize_text prov != "" && normalize_text dep != "") = true := by
      unfold state4Fires at h4
      rw [Bool.and_eq_true] at h4
      exact h4.1
    rw [if_pos hc, hr]
  · intro h1 h2 h3 h4 h5 r hr
    unfold state1Fires at h1
    unfold geocode_incident
    rw [hne]
    simp only [Bool.false_eq_true, if_false]
    rw [if_neg (ne_true_of_eq_false h1)]
    rw [azure_scrut_none env dep prov dist ubic h2]
    rw [distrito_scrut_none env dep prov dist h3]
    rw [provincia_scrut_none env dep prov h4]
    have hc : (normalize_text dep != "") = true := by
      unfold state5Fires at h5
      rw [Bool.and_eq_true] at h5
      exact h5.1
    rw [if_pos hc, hr]
  · intro h1 h2 h3 h4 h5 h6
    unfold state1Fires at h1
    unfold state6Fires at h6
    unfold geocode_incident
    rw [hne]
    simp only [Bool.false_eq_true, if_false]
    rw [if_neg (ne_true_of_eq_false h1)]
    rw [azure_scrut_none env dep prov dist ubic h2]
    rw [distrito_scrut_none env dep prov dist h3]
    rw [provincia_scrut_none env dep prov h4]
    rw [departamento_scrut_none env dep h5]
    rw [if_pos h6]
  · intro h1 h2 h3 h4 h5 h6
    unfold state1Fires at h1
    unfold state6Fires at h6
    unfold geocode_incident
    rw [hne]
    simp only [Bool.false_eq_true, if_false]
    rw [if_neg (ne_true_of_eq_false h1)]
    rw [azure_scrut_none env dep prov dist ubic h2]
    rw [distrito_scrut_none env dep prov dist h3]
    rw [provincia_scrut_none env dep prov h4]
    rw [departamento_scrut_none env dep h5]
    rw [if_neg (ne_true_of_eq_false h6)]

/-- C2: for every gazetteer index hit (admin level 1-3, matched n-gram of
1-3 tokens) the candidate score equals
`min(1.0, base + length_bonus + location_text_boost)` with the tables of
the specification, lies in [0, 1], and a 3-token match never scores
below a 2-token match at the same admin level and source field. -/
theorem C2_score_candidate_formula :
    (∀ (ng : String) (lvl : ℕ) (inLoc : Bool),
      lvl = 1 ∨ lvl = 2 ∨ lvl = 3 →
      ((pySplit ng).length = 1 ∨ (pySplit ng).length = 2 ∨ (pySplit ng).length = 3) →
      score_candidate ng lvl inLoc
          = min 1 (specBase lvl + specLengthBonus (pySplit ng).length
              + (if inLoc then 0.15 else 0))
        ∧ 0 ≤ score_candidate ng lvl inLoc ∧ score_candidate ng lvl inLoc ≤ 1)
    ∧ (∀ (ng3 ng2 : String) (lvl : ℕ) (inLoc : Bool),
      lvl = 1 ∨ lvl = 2 ∨ lvl = 3 →
      (pySplit ng3).length = 3 → (pySplit ng2).length = 2 →
      score_candidate ng2 lvl inLoc ≤ score_candidate ng3 lvl inLoc) := by
  constructor
  · rintro ng lvl inLoc (rfl | rfl | rfl) (h | h | h) <;> cases inLoc <;>
      norm_num [score_candidate, specBase, specLengthBonus, round4, h, min_def]
  · rintro ng3 ng2 lvl inLoc (rfl | rfl | rfl) h3 h2 <;> cases inLoc <;>
      norm_num [score_candidate, specBase, specLengthBonus, round4, h3, h2, min_def]

/-- Witness for C2 at concrete inputs. -/
theorem C2_score_candidate_formula_witness :
    (score_candidate "comas" 3 true
        = min 1 (specBase 3 + specLengthBonus 1 + 0.15))
    ∧ score_candidate "villa maria" 3 false ≤ score_candidate "san juan de" 3 false :=
  ⟨(C2_score_candidate_formula.1 "comas" 3 true (by decide)
      (Or.inl (by decide))).1,
   C2_score_candidate_formula.2 "san juan de" "villa maria" 3 false (by decide)
     (by decide) (by decide)⟩

/-- The ranking order is asymmetric. -/
lemma rankBefore_asymm {a b : StgCand} (hab : rankBefore a b)
    (hba : rankBefore b a) : False := by
  unfold rankBefore at hab hba
  rcases hab with h | ⟨hs, h | ⟨ht, h⟩⟩ <;>
    rcases hba with h' | ⟨hs', h' | ⟨ht', h'⟩⟩ <;>
    first
      | exact absurd h' (lt_asymm h)
      | simp_all

/-- The ranking order is transitive. -/
lemma rankBefore_trans {a b c : StgCand} (hab : rankBefore a b)
    (hbc : rankBefore b c) : rankBefore a c := by
  unfold rankBefore at hab hbc ⊢
  rcases hab with h | ⟨hs, h | ⟨ht, h⟩⟩ <;>
    rcases hbc with h' | ⟨hs', h' | ⟨ht', h'⟩⟩
  · exact Or.inl (lt_trans h' h)
  · exact Or.inl (hs' ▸ h)
  · exact Or.inl (hs' ▸ h)
  · exact Or.inl (hs ▸ h')
  · exact Or.inr ⟨hs'.trans hs, Or.inl (lt_trans h' h)⟩
  · exact Or.inr ⟨hs'.trans hs, Or.inl (ht' ▸ h)⟩
  · exact Or.inl (hs ▸ h')
  · exact Or.inr ⟨hs'.trans hs, Or.inl (ht ▸ h')⟩
  · exact Or.inr ⟨hs'.trans hs, Or.inr ⟨ht'.trans ht, lt_trans h h'⟩⟩

/-- Any two rows with different place ids are comparable. -/
lemma rankBefore_total {a b : StgCand}
    (hne : a.candidate_place_id ≠ b.candidate_place_id) :
    rankBefore a b ∨ rankBefore b a := by
  unfold rankBefore
  rcases lt_trichotomy a.score b.score with h | h | h
  · exact Or.inr (Or.inl h)
  · rcases lt_trichotomy a.matched_tokens b.matched_tokens with h' | h' | h'
    · exact Or.inr (Or.inr ⟨h, Or.inl h'⟩)
    · rcases lt_trichotomy a.candidate_place_id b.candidate_place_id with h'' | h'' | h''
      · exact Or.inl (Or.inr ⟨h.symm, Or.inr ⟨h'.symm, h''⟩⟩)
      · exact absurd h'' hne
      · exact Or.inr (Or.inr ⟨h, Or.inr ⟨h', h''⟩⟩)
    · exact Or.inl (Or.inr ⟨h.symm, Or.inl h'⟩)
  · exact Or.inl (Or.inl h)

/-- A non-empty partition with pairwise distinct place ids has a rank-1
row. -/
lemma exists_isPrimary :
    ∀ g : List StgCand, (g.map fun c => c.candidate_place_id).Nodup →
      g ≠ [] → ∃ r, isPrimary g r := by
  intro g
  induction g with
  | nil => intro _ h; exact absurd rfl h
  | cons a t ih =>
    intro hnd _
    rw [List.map_cons, List.nodup_cons] at hnd
    rcases hnd with ⟨haid, hndt⟩
    cases t with
    | nil =>
      refine ⟨a, List.mem_singleton.2 rfl, ?_⟩
      intro s hs hne
      exact absurd (List.mem_singleton.1 hs) hne
    | cons b u =>
      rcases ih hndt (by simp) with ⟨p, hpmem, hpbest⟩
      have hap : a.candidate_place_id ≠ p.candidate_place_id := by
        intro hcontra
        exact haid (hcontra ▸ List.mem_map.2 ⟨p, hpmem, rfl⟩)
      have hanep : a ≠ p := fun hc => hap (hc ▸ rfl)
      rcases rankBefore_total hap with hbefore | hafter
      · refine ⟨a, List.mem_cons_self a _, ?_⟩
        intro s hs hne
        rcases List.mem_cons.1 hs with rfl | hsmem
        · exact absurd rfl hne
        · by_cases hsp : s = p
          · exact hsp ▸ hbefore
          · exact rankBefore_trans hbefore (hpbest s hsmem hsp)
      · refine ⟨p, List.mem_cons_of_mem a hpmem, ?_⟩
        intro s hs hne
        rcases List.mem_cons.1 hs with rfl | hsmem
        · exact hafter
        · exact hpbest s hsmem hne

/-- C3: is_primary marks the rank-1 row of the (run, incident)
partition under (score desc, token count desc, place id asc): at most
one row of a partition is primary, and exactly one whenever the
partition is non-empty. -/
theorem C3_primary_placement (g : List StgCand)
    (hnd : (g.map fun c => c.candidate_place_id).Nodup) :
    (∀ r s, isPrimary g r → isPrimary g s → r = s)
    ∧ (g ≠ [] → ∃ r, isPrimary g r) := by
  constructor
  · intro r s hr hs
    by_contra hne
    exact rankBefore_asymm (hr.2 s hs.1 (fun h => hne h.symm))
      (hs.2 r hr.1 hne)
  · exact exists_isPrimary g hnd

/-- Witness for C3 at a concrete one-candidate partition. -/
theorem C3_primary_placement_witness : ∃ r, isPrimary [candA] r :=
  (C3_primary_placement [candA] (by simp)).2 (by simp)

/-- C4: an incident is flagged ambiguous iff a rank-2 score exists and
the gap s1 - s2 is at most the threshold; s2 exists iff the incident has
at least two candidates (so zero or one candidate is never ambiguous);
s1 bounds every candidate score; top scores 0.80/0.76 are ambiguous and
0.80/0.70 are not under the default threshold 0.05. -/
theorem C4_ambiguity_flag :
    (∀ (scores : List ℚ) (thr : ℚ),
      ambiguousFlag scores thr = true
        ↔ ∃ a b, (s1s2 scores).1 = some a ∧ (s1s2 scores).2 = some b
            ∧ a - b ≤ thr)
    ∧ (∀ scores : List ℚ, ((s1s2 scores).2).isSome ↔ 2 ≤ scores.length)
    ∧ (∀ (scores : List ℚ) (a : ℚ), (s1s2 scores).1 = some a →
        ∀ x ∈ scores, x ≤ a)
    ∧ (∀ thr : ℚ, ambiguousFlag [] thr = false)
    ∧ (∀ (thr : ℚ) (s : ℚ), ambiguousFlag [s] thr = false)
    ∧ ambiguousFlag [0.80, 0.76] 0.05 = true
    ∧ ambiguousFlag [0.80, 0.70] 0.05 = false := by
  have hlen : ∀ scores : List ℚ, (sortScoresDesc scores).length = scores.length :=
    fun scores => List.length_insertionSort _ scores
  refine ⟨?_, ?_, ?_, ?_, ?_, ?_, ?_⟩
  · intro scores thr
    rcases h : s1s2 scores with ⟨o1, o2⟩
    rcases o1 with _ | a <;> rcases o2 with _ | b <;>
      simp [ambiguousFlag, h]
  · intro scores
    rw [show (s1s2 scores).2 = (sortScoresDesc scores)[1]? from rfl]
    rw [Option.isSome_iff_ne_none]
    simp only [ne_eq, List.getElem?_eq_none_iff, hlen scores, not_le]
    omega
  · intro scores a ha x hx
    have hx' : x ∈ sortScoresDesc scores :=
      ((List.perm_insertionSort (· ≥ ·) scores).mem_iff).2 hx
    have ha' : (sortScoresDesc scores).head? = some a := ha
    rcases List.head?_eq_some_iff.1 ha' with ⟨ys, hys⟩
    have hsorted : List.Sorted (· ≥ ·) (sortScoresDesc scores) :=
      List.sorted_insertionSort (· ≥ ·) scores
    rw [hys] at hx' hsorted
    rcases List.mem_cons.1 hx' with rfl | hmem
    · exact le_refl x
    · exact (List.sorted_cons.1 hsorted).1 x hmem
  · intro thr; simp [ambiguousFlag, s1s2, sortScoresDesc]
  · intro thr s; simp [ambiguousFlag, s1s2, sortScoresDesc, List.insertionSort]
  · simp [ambiguousFlag, s1s2, sortScoresDesc, List.insertionSort,
      List.orderedInsert]
    norm_num
  · simp [ambiguousFlag, s1s2, sortScoresDesc, List.insertionSort,
      List.orderedInsert]
    norm_num

/-- Witness for C4 at a concrete candidate list. -/
theorem C4_ambiguity_flag_witness :
    ((0.76:ℚ) ≤ 0.80) ∧ ((s1s2 [(0.80:ℚ), 0.76]).1 = some 0.80) :=
  ⟨C4_ambiguity_flag.2.2.1 [(0.80:ℚ), 0.76] 0.80
      (by simp [s1s2, sortScoresDesc, List.insertionSort, List.orderedInsert]; norm_num)
      0.76 (by simp),
   by simp [s1s2, sortScoresDesc, List.insertionSort, List.orderedInsert]; norm_num⟩

/-- C5: for every overridable field the curated effective value is the
override value when that override field is non-null and the resolver
value otherwise; rows without an override row are copied unchanged; the
concrete Lima example merges as specified. -/
theorem C5_curated_merge :
    (∀ (f : FactRow) (ov : OverrideCols),
      ((∀ v, ov.override_incident_type = some v →
          (build_curated_row f (some ov)).incident_type = some v)
        ∧ (ov.override_incident_type = none →
          (build_curated_row f (some ov)).incident_type = f.incident_type))
      ∧ ((∀ v, ov.override_confidence = some v →
          (build_curated_row f (some ov)).confidence = some v)
        ∧ (ov.override_confidence = none →
          (build_curated_row f (some ov)).confidence = f.confidence))
      ∧ ((∀ v, ov.override_location_text = some v →
          (build_curated_row f (some ov)).location_text = some v)
        ∧ (ov.override_location_text = none →
          (build_curated_row f (some ov)).location_text = f.location_text))
      ∧ ((∀ v, ov.override_title = some v →
          (build_curated_row f (some ov)).title = some v)
        ∧ (ov.override_title = none →
          (build_curated_row f (some ov)).title = f.title))
      ∧ ((∀ v, ov.override_body = some v →
          (build_curated_row f (some ov)).body = some v)
        ∧ (ov.override_body = none →
          (build_curated_row f (some ov)).body = f.body))
      ∧ ((∀ v, ov.override_place_id = some v →
          (build_curated_row f (some ov)).place_id = some v)
        ∧ (ov.override_place_id = none →
          (build_curated_row f (some ov)).place_id = f.place_id))
      ∧ ((∀ v, ov.override_adm1 = some v →
          (build_curated_row f (some ov)).adm1 = some v)
        ∧ (ov.override_adm1 = none →
          (build_curated_row f (some ov)).adm1 = f.adm1))
      ∧ ((∀ v, ov.override_adm2 = some v →
          (build_curated_row f (some ov)).adm2 = some v)
        ∧ (ov.override_adm2 = none →
          (build_curated_row f (some ov)).adm2 = f.adm2))
      ∧ ((∀ v, ov.override_adm3 = some v →
          (build_curated_row f (some ov)).adm3 = some v)
        ∧ (ov.override_adm3 = none →
          (build_curated_row f (some ov)).adm3 = f.adm3))
      ∧ ((∀ v, ov.override_lat = some v →
          (build_curated_row f (some ov)).lat = some v)
        ∧ (ov.override_lat = none →
          (build_curated_row f (some ov)).lat = f.lat))
      ∧ ((∀ v, ov.override_lon = some v →
          (build_curated_row f (some ov)).lon = some v)
        ∧ (ov.override_lon = none →
          (build_curated_row f (some ov)).lon = f.lon)))
    ∧ (∀ f : FactRow, build_curated_row f none = f)
    ∧ ((build_curated_row
          { incident_id := "i1", incident_type := none, confidence := none,
            location_text := none, title := none, body := none,
            place_id := none, adm1 := some "Lima", adm2 := none, adm3 := none,
            lat := some (-12), lon := some (-77) }
          (some
            { override_incident_type := none, override_confidence := none,
              override_location_text := none, override_title := none,
              override_body := none, override_place_id := none,
              override_adm1 := none, override_adm2 := none,
              override_adm3 := none,
              override_lat := some (-12.05), override_lon := none })).adm1
            = some "Lima"
      ∧ (build_curated_row
          { incident_id := "i1", incident_type := none, confidence := none,
            location_text := none, title := none, body := none,
            place_id := none, adm1 := some "Lima", adm2 := none, adm3 := none,
            lat := some (-12), lon := some (-77) }
          (some
            { override_incident_type := none, override_confidence := none,
              override_location_text := none, override_title := none,
              override_body := none, override_place_id := none,
              override_adm1 := none, override_adm2 := none,
              override_adm3 := none,
              override_lat := some (-12.05), override_lon := none })).lat
            = some (-12.05)
      ∧ (build_curated_row
          { incident_id := "i1", incident_type := none, confidence := none,
            location_text := none, title := none, body := none,
            place_id := none, adm1 := some "Lima", adm2 := none, adm3 := none,
            lat := some (-12), lon := some (-77) }
          (some
            { override_incident_type := none, override_confidence := none,
              override_location_text := none, override_title := none,
              override_body := none, override_place_id := none,
              override_adm1 := none, override_adm2 := none,
              override_adm3 := none,
              override_lat := some (-12.05), override_lon := none })).lon
            = some (-77)) := by
  refine ⟨fun f ov => ?_, fun f => rfl, ?_⟩
  · refine ⟨⟨?_, ?_⟩, ⟨?_, ?_⟩, ⟨?_, ?_⟩, ⟨?_, ?_⟩, ⟨?_, ?_⟩, ⟨?_, ?_⟩,
      ⟨?_, ?_⟩, ⟨?_, ?_⟩, ⟨?_, ?_⟩, ⟨?_, ?_⟩, ⟨?_, ?_⟩⟩ <;>
    · intros
      simp_all [build_curated_row, coalesce]
  · refine ⟨?_, ?_, ?_⟩ <;> simp [build_curated_row, coalesce]

/-- Witness for C5 at concrete inputs. -/
theorem C5_curated_merge_witness :
    (build_curated_row
        { incident_id := "w", incident_type := none, confidence := none,
          location_text := none, title := none, body := none,
          place_id := none, adm1 := none, adm2 := none, adm3 := none,
          lat := some 1, lon := none }
        (some
          { override_incident_type := none, override_confidence := none,
            override_location_text := none, override_title := none,
            override_body := none, override_place_id := none,
            override_adm1 := none, override_adm2 := none,
            override_adm3 := none,
            override_lat := some 2, override_lon := none })).lat = some 2 :=
  ((C5_curated_merge.1
      { incident_id := "w", incident_type := none, confidence := none,
        location_text := none, title := none, body := none,
        place_id := none, adm1 := none, adm2 := none, adm3 := none,
        lat := some 1, lon := none }
      { override_incident_type := none, override_confidence := none,
        override_location_text := none, override_title := none,
        override_body := none, override_place_id := none,
        override_adm1 := none, override_adm2 := none,
        override_adm3 := none,
        override_lat := some 2, override_lon := none }).2.2.2.2.2.2.2.2.2.1.1 2 rfl)

/-- C6 counterexample: an override whose `override_place_id` is absent
from the gazetteer is accepted by the CSV import write path with no
validation error, and the override store changes (the claim says the
row is rejected and the store left unchanged). -/
theorem C6_counterexample :
    run_overrides_csv "manual" [csvRowX] []
        = [{ incident_id := "inc-1", fields := fieldsX,
             updated_by := "manual", created_by := "manual" }]
      ∧ gazIdsX.contains "XX-999" = false := by
  constructor
  · simp [run_overrides_csv, upsert_override, csvRowX]
  · simp [gazIdsX]

/-- C6 amended: the CSV import accepts every row with a truthy
incident id regardless of its `override_place_id` (the gazetteer is
never consulted at write time); an override referencing an unknown
place id is instead flagged post hoc by the referential check of
`check_curation_run.py`, which reports failure (exit code 2) without
modifying the store. -/
theorem C6_amended (user : String) (gaz : List String)
    (tbl : List OverrideStoreRow) (row : CsvOverrideRow) (iid p : String)
    (hid : row.incident_id = some iid)
    (hp : row.fields.override_place_id = some p)
    (hmem : gaz.contains p = false) :
    (∃ o ∈ run_overrides_csv user [row] tbl,
        o.incident_id = iid ∧ o.fields = row.fields)
    ∧ check_overrides_place gaz (run_overrides_csv user [row] tbl) = 2 := by
  have hrun : run_overrides_csv user [row] tbl = upsert_override user tbl row := by
    simp [run_overrides_csv]
  have hex : ∃ o ∈ run_overrides_csv user [row] tbl,
      o.incident_id = iid ∧ o.fields = row.fields := by
    rw [hrun]
    simp only [upsert_override, hid]
    by_cases hany : (tbl.any fun o => o.incident_id == iid) = true
    · rw [if_pos hany]
      rcases List.any_eq_true.1 hany with ⟨o, ho, hoid⟩
      refine ⟨{ o with fields := row.fields, updated_by := user }, ?_, ?_, rfl⟩
      · exact List.mem_map.2 ⟨o, ho, by rw [if_pos hoid]⟩
      · exact beq_iff_eq.1 hoid
    · rw [if_neg hany]
      exact ⟨_, List.mem_append_right _ (List.mem_singleton.2 rfl), rfl, rfl⟩
  refine ⟨hex, ?_⟩
  rcases hex with ⟨o, ho, hoid, hof⟩
  have hpred : (fun o : OverrideStoreRow =>
      match o.fields.override_place_id with
      | some q => !(gaz.contains q)
      | none => false) o = true := by
    show (match o.fields.override_place_id with
      | some q => !(gaz.contains q)
      | none => false) = true
    rw [hof, hp]
    simp only [hmem]
    rfl
  have hmemf : o ∈ (run_overrides_csv user [row] tbl).filter
      (fun o : OverrideStoreRow =>
        match o.fields.override_place_id with
        | some q => !(gaz.contains q)
        | none => false) :=
    List.mem_filter.2 ⟨ho, hpred⟩
  have hlen : ((run_overrides_csv user [row] tbl).filter
      (fun o : OverrideStoreRow =>
        match o.fields.override_place_id with
        | some q => !(gaz.contains q)
        | none => false)).length ≠ 0 := by
    intro hzero
    rw [List.length_eq_zero] at hzero
    rw [hzero] at hmemf
    exact List.not_mem_nil _ hmemf
  simp only [check_overrides_place]
  rw [if_pos hlen]

/-- Witness for the amended C6 at concrete inputs. -/
theorem C6_amended_witness :
    (∃ o ∈ run_overrides_csv "manual" [csvRowX] [],
        o.incident_id = "inc-1" ∧ o.fields = csvRowX.fields)
    ∧ check_overrides_place gazIdsX (run_overrides_csv "manual" [csvRowX] []) = 2 :=
  C6_amended "manual" gazIdsX [] csvRowX "inc-1" "XX-999"
    (by simp [csvRowX]) (by simp [csvRowX, fieldsX]) (by simp [gazIdsX])

/-- C7: the external geocoder retries a timeout up to 2 extra times with
backoff 0.5s then 1.0s, retries HTTP 429 after a 1s sleep within the
same budget, returns null on any other HTTP error without retrying, and
an address that times out twice and succeeds on the third attempt still
returns its coordinate. -/
theorem C7_retry_policy (key : Option String) (resp : ℕ → AzResp)
    (hkey : truthyS key = true) :
    (∀ la lo : ℚ, resp 0 = .timeout → resp 1 = .timeout →
        resp 2 = .success [(some la, some lo)] → la ≠ 0 → lo ≠ 0 →
        geocode_address key resp = (some (la, lo), [1/2, 1]))
    ∧ (resp 0 = .timeout → resp 1 = .timeout → resp 2 = .timeout →
        geocode_address key resp = (none, [1/2, 1]))
    ∧ (∀ la lo : ℚ, resp 0 = .http429 →
        resp 1 = .success [(some la, some lo)] → la ≠ 0 → lo ≠ 0 →
        geocode_address key resp = (some (la, lo), [1]))
    ∧ (resp 0 = .httpError → geocode_address key resp = (none, [])) := by
  refine ⟨?_, ?_, ?_, ?_⟩
  · intro la lo h0 h1 h2 hla hlo
    simp [geocode_address, hkey, azureLoop, h0, h1, h2, AZURE_MAPS_MAX_RETRIES,
      truthyF, hla, hlo]
    norm_num
  · intro h0 h1 h2
    simp [geocode_address, hkey, azureLoop, h0, h1, h2, AZURE_MAPS_MAX_RETRIES]
    norm_num
  · intro la lo h0 h1 hla hlo
    simp [geocode_address, hkey, azureLoop, h0, h1, AZURE_MAPS_MAX_RETRIES,
      truthyF, hla, hlo]
  · intro h0
    simp [geocode_address, hkey, azureLoop, h0]

/-- C8 counterexample: the resolver passes an out-of-range upstream
coordinate through unchecked — with upstream latitude 100 the estimado
state returns latitude 100, outside [-90, 90]. -/
theorem C8_counterexample :
    (geocode_incident envLima none none none none (some 100) (some 200)).lat
        = some 100
      ∧ (geocode_incident envLima none none none none (some 100) (some 200)).nivel
        = some Nivel.estimado
      ∧ ¬((100 : ℚ) ≤ 90) := by
  refine ⟨?_, ?_, by norm_num⟩ <;>
  · simp only [geocode_incident, envLima, gazLima]
    norm_num [normalize_text, is_adm4, truthyS, truthyF]

/-- C8 amended: whenever every coordinate source is in range (the
gazetteer rows, the upstream coordinate when present, and every answer
of the external geocoder), the resolved coordinate is in range.  The
resolver itself never checks or clamps: an out-of-range upstream
coordinate is returned as-is by the estimado state. -/
theorem C8_amended (env : GeoEnv) (dep prov dist ubic : Option String)
    (la lo : Option ℚ)
    (hgaz : ∀ r ∈ env.gazetteer,
      -90 ≤ r.lat ∧ r.lat ≤ 90 ∧ -180 ≤ r.lon ∧ r.lon ≤ 180)
    (hllm : ∀ x y : ℚ, la = some x → lo = some y →
      -90 ≤ x ∧ x ≤ 90 ∧ -180 ≤ y ∧ y ≤ 180)
    (haz : ∀ (a : String) (d : Option String) (q : ℚ × ℚ),
      env.azure a d = some q →
      -90 ≤ q.1 ∧ q.1 ≤ 90 ∧ -180 ≤ q.2 ∧ q.2 ≤ 180) :
    ∀ x y : ℚ,
      (geocode_incident env dep prov dist ubic la lo).lat = some x →
      (geocode_incident env dep prov dist ubic la lo).lon = some y →
      -90 ≤ x ∧ x ≤ 90 ∧ -180 ≤ y ∧ y ≤ 180 := by
  intro x y hx hy
  rcases hR : geocode_incident env dep prov dist ubic la lo with ⟨rlat, rlon, rniv, radm⟩
  rw [hR] at hx hy
  simp only at hx hy
  subst hx hy
  unfold geocode_incident at hR
  by_cases hemp : env.gazetteer.isEmpty = true
  · rw [if_pos hemp] at hR
    by_cases h1 : (truthyF la && truthyF lo) = true
    · rw [if_pos h1] at hR
      simp only [GeoResult.mk.injEq] at hR
      exact hllm x y hR.1 hR.2.1
    · rw [if_neg h1] at hR
      simp only [GeoResult.mk.injEq] at hR
      exact absurd hR.1 (by simp)
  · rw [if_neg hemp] at hR
    simp only [] at hR
    by_cases h1 : (truthyF la && truthyF lo
        && is_adm4 ubic dist prov dep) = true
    · rw [if_pos h1] at hR
      simp only [GeoResult.mk.injEq] at hR
      exact hllm x y hR.1 hR.2.1
    · rw [if_neg h1] at hR
      rcases hq2 : (if (env.azure_available && is_adm4 ubic dist prov dep) = true
          then env.azure (ubic.getD "") dep else none) with _ | q
      · rw [hq2] at hR
        simp only [] at hR
        rcases hq3 : (if (normalize_text dist != "" && normalize_text prov != ""
              && normalize_text dep != "") = true
            then gazMatchDistrito env.gazetteer (normalize_text dist)
              (normalize_text prov) (normalize_text dep) else none) with _ | r
        · rw [hq3] at hR
          simp only [] at hR
          rcases hq4 : (if (normalize_text prov != ""
                && normalize_text dep != "") = true
              then gazMatchProvincia env.gazetteer (normalize_text prov)
                (normalize_text dep) else none) with _ | r
          · rw [hq4] at hR
            simp only [] at hR
            rcases hq5 : (if (normalize_text dep != "") = true
                then gazMatchDepartamento env.gazetteer (normalize_text dep)
                else none) with _ | r
            · rw [hq5] at hR
              simp only [] at hR
              by_cases h6 : (truthyF la && truthyF lo) = true
              · rw [if_pos h6] at hR
                simp only [GeoResult.mk.injEq] at hR
                exact hllm x y hR.1 hR.2.1
              · rw [if_neg h6] at hR
                simp only [GeoResult.mk.injEq] at hR
                exact absurd hR.1 (by simp)
            · rw [hq5] at hR
              simp only [GeoResult.mk.injEq] at hR
              rcases hR with ⟨h1', h2', -, -⟩
              rw [Option.some.injEq] at h1' h2'
              rw [← h1', ← h2']
              by_cases hc : (normalize_text dep != "") = true
              · rw [if_pos hc] at hq5
                exact hgaz r (List.mem_of_find?_eq_some hq5)
              · rw [if_neg hc] at hq5
                exact absurd hq5 (by simp)
          · rw [hq4] at hR
            simp only [GeoResult.mk.injEq] at hR
            rcases hR with ⟨h1', h2', -, -⟩
            rw [Option.some.injEq] at h1' h2'
            rw [← h1', ← h2']
            by_cases hc : (normalize_text prov != "" && normalize_text dep != "") = true
            · rw [if_pos hc] at hq4
              exact hgaz r (List.mem_of_find?_eq_some hq4)
            · rw [if_neg hc] at hq4
              exact absurd hq4 (by simp)
        · rw [hq3] at hR
          simp only [GeoResult.mk.injEq] at hR
          rcases hR with ⟨h1', h2', -, -⟩
          rw [Option.some.injEq] at h1' h2'
          rw [← h1', ← h2']
          by_cases hc : (normalize_text dist != "" && normalize_text prov != ""
              && normalize_text dep != "") = true
          · rw [if_pos hc] at hq3
            exact hgaz r (List.mem_of_find?_eq_some hq3)
          · rw [if_neg hc] at hq3
            exact absurd hq3 (by simp)
      · rw [hq2] at hR
        simp only [GeoResult.mk.injEq] at hR
        rcases hR with ⟨h1', h2', -, -⟩
        rw [Option.some.injEq] at h1' h2'
        rw [← h1', ← h2']
        by_cases hc : (env.azure_available && is_adm4 ubic dist prov dep) = true
        · rw [if_pos hc] at hq2
          exact haz _ _ q hq2
        · rw [if_neg hc] at hq2
          exact absurd hq2 (by simp)

/-- Rows generated for a run survive the run filter unchanged and are
wiped entirely by the delete filter. -/
lemma filter_gen_of_run {runId : String} {gen : List StgCand}
    (hgen : ∀ r ∈ gen, r.ingest_run_id = runId) :
    gen.filter (fun r => r.ingest_run_id == runId) = gen
      ∧ gen.filter (fun r => r.ingest_run_id != runId) = [] := by
  constructor
  · exact List.filter_eq_self.2 fun r hr => by simp [hgen r hr]
  · exact List.filter_eq_nil_iff.2 fun r hr => by simp [hgen r hr]

/-- Resolved rows keep the run id of the candidate rows they come from. -/
lemma resolveRows_run_id {runId : String} {gen : List StgCand}
    (hgen : ∀ r ∈ gen, r.ingest_run_id = runId) :
    (resolveRows gen).filter (fun r => r.ingest_run_id != runId) = []
      ∧ (resolveRows gen).filter (fun r => r.ingest_run_id == runId)
          = resolveRows gen := by
  constructor
  · refine List.filter_eq_nil_iff.2 fun m hm => ?_
    rcases List.mem_map.1 hm with ⟨c, hc, rfl⟩
    simp [hgen c hc]
  · refine List.filter_eq_self.2 fun m hm => ?_
    rcases List.mem_map.1 hm with ⟨c, hc, rfl⟩
    simp [hgen c hc]

/-- Deleting a run id twice equals deleting it once. -/
lemma filter_ne_idem {α : Type} (f : α → String) (runId : String) (l : List α) :
    (l.filter fun r => f r != runId).filter (fun r => f r != runId)
      = l.filter fun r => f r != runId := by
  rw [List.filter_filter]
  exact List.filter_congr fun a _ => by cases h : f a == runId <;> simp [bne, h]

/-- C9: the candidate-generation plus resolution pipeline is
deterministic and idempotent per run id — re-running it leaves the
warehouse unchanged, and the rows stored for the run are exactly the
generated candidates and their resolution, both times. -/
theorem C9_pipeline_idempotent (runId : String) (gen : List StgCand)
    (st : DwState) (hgen : ∀ r ∈ gen, r.ingest_run_id = runId) :
    geo_pipeline runId gen (geo_pipeline runId gen st) = geo_pipeline runId gen st
    ∧ (geo_pipeline runId gen st).cands.filter
        (fun r => r.ingest_run_id == runId) = gen
    ∧ (geo_pipeline runId gen st).maps.filter
        (fun r => r.ingest_run_id == runId) = resolveRows gen := by
  rcases filter_gen_of_run hgen with ⟨hkeep, hwipe⟩
  rcases resolveRows_run_id hgen with ⟨hmwipe, hmkeep⟩
  have hcands : ∀ s : DwState, (geo_pipeline runId gen s).cands
      = s.cands.filter (fun r => r.ingest_run_id != runId) ++ gen := by
    intro s
    simp [geo_pipeline, run_geo_resolve_step, run_location_candidates_step]
  have hruncands : ∀ s : DwState,
      ((geo_pipeline runId gen s).cands.filter fun r => r.ingest_run_id == runId)
        = gen := by
    intro s
    rw [hcands s, List.filter_append, hkeep]
    have : (s.cands.filter fun r => r.ingest_run_id != runId).filter
        (fun r => r.ingest_run_id == runId) = [] := by
      rw [List.filter_filter]
      refine List.filter_eq_nil_iff.2 fun a _ => ?_
      cases h : a.ingest_run_id == runId <;> simp [bne, h]
    rw [this, List.nil_append]
  have hmaps : ∀ s : DwState, (geo_pipeline runId gen s).maps
      = s.maps.filter (fun r => r.ingest_run_id != runId)
        ++ resolveRows ((s.cands.filter (fun r => r.ingest_run_id != runId)
            ++ gen).filter fun r => r.ingest_run_id == runId) := by
    intro s
    simp [geo_pipeline, run_geo_resolve_step, run_location_candidates_step]
  have hmaps' : ∀ s : DwState, (geo_pipeline runId gen s).maps
      = s.maps.filter (fun r => r.ingest_run_id != runId) ++ resolveRows gen := by
    intro s
    rw [hmaps s, List.filter_append, hkeep]
    have : (s.cands.filter fun r => r.ingest_run_id != runId).filter
        (fun r => r.ingest_run_id == runId) = [] := by
      rw [List.filter_filter]
      refine List.filter_eq_nil_iff.2 fun a _ => ?_
      cases h : a.ingest_run_id == runId <;> simp [bne, h]
    rw [this, List.nil_append]
  refine ⟨?_, hruncands st, ?_⟩
  · have h1 : (geo_pipeline runId gen (geo_pipeline runId gen st)).cands
        = (geo_pipeline runId gen st).cands := by
      rw [hcands (geo_pipeline runId gen st), hcands st]
      rw [List.filter_append, hwipe, List.append_nil,
        filter_ne_idem (fun r => r.ingest_run_id) runId st.cands]
    have h2 : (geo_pipeline runId gen (geo_pipeline runId gen st)).maps
        = (geo_pipeline runId gen st).maps := by
      rw [hmaps' (geo_pipeline runId gen st), hmaps' st]
      rw [List.filter_append, hmwipe, List.append_nil,
        filter_ne_idem (fun r => r.ingest_run_id) runId st.maps]
    cases hfst : geo_pipeline runId gen (geo_pipeline runId gen st) with
    | mk c m =>
      cases hsnd : geo_pipeline runId gen st with
      | mk c' m' =>
        rw [hfst, hsnd] at h1 h2
        simp only at h1 h2
        rw [h1, h2]
  · rw [hmaps' st, List.filter_append]
    have hnil : (st.maps.filter fun r => r.ingest_run_id != runId).filter
        (fun r => r.ingest_run_id == runId) = [] := by
      rw [List.filter_filter]
      refine List.filter_eq_nil_iff.2 fun a _ => ?_
      cases h : a.ingest_run_id == runId <;> simp [bne, h]
    rw [hnil, hmkeep, List.nil_append]

/-- Witness for C9 at a concrete run. -/
theorem C9_pipeline_idempotent_witness :
    geo_pipeline "run-1" [candA] (geo_pipeline "run-1" [candA] ⟨[], []⟩)
      = geo_pipeline "run-1" [candA] ⟨[], []⟩ :=
  (C9_pipeline_idempotent "run-1" [candA] ⟨[], []⟩
    (by simp [candA])).1

/-- C10: an upstream coordinate with latitude or longitude exactly 0.0
is treated as absent by the numeric-truthiness presence test, so the
incident can never resolve to nivel especifico or estimado; likewise
the Azure client discards a response position with a 0.0 coordinate and
returns null. -/
theorem C10_zero_coordinate_falsy :
    (∀ (env : GeoEnv) (dep prov dist ubic : Option String) (lo : Option ℚ),
      (geocode_incident env dep prov dist ubic (some 0) lo).nivel
          ≠ some Nivel.especifico
        ∧ (geocode_incident env dep prov dist ubic (some 0) lo).nivel
          ≠ some Nivel.estimado)
    ∧ (∀ (env : GeoEnv) (dep prov dist ubic : Option String) (la : Option ℚ),
      (geocode_incident env dep prov dist ubic la (some 0)).nivel
          ≠ some Nivel.especifico
        ∧ (geocode_incident env dep prov dist ubic la (some 0)).nivel
          ≠ some Nivel.estimado)
    ∧ (∀ (key : Option String) (resp : ℕ → AzResp) (lo : Option ℚ),
        resp 0 = .success [(some 0, lo)] → (geocode_address key resp).1 = none)
    ∧ (∀ (key : Option String) (resp : ℕ → AzResp) (la : Option ℚ),
        resp 0 = .success [(la, some 0)] → (geocode_address key resp).1 = none) := by
  have hz : truthyF (some 0) = false := by simp [truthyF]
  refine ⟨?_, ?_, ?_, ?_⟩
  · intro env dep prov dist ubic lo
    unfold geocode_incident
    split
    · rw [hz]
      simp
    · rw [hz]
      simp only [Bool.false_and, Bool.and_false, Bool.false_eq_true, if_false]
      repeat' split
      all_goals simp_all
  · intro env dep prov dist ubic la
    unfold geocode_incident
    split
    · rw [hz]
      simp
    · rw [hz]
      simp only [Bool.false_and, Bool.and_false, Bool.false_eq_true, if_false]
      repeat' split
      all_goals simp_all
  · intro key resp lo h0
    by_cases hk : truthyS key = true
    · simp [geocode_address, hk, azureLoop, h0, truthyF]
    · simp at hk
      simp [geocode_address, hk]
  · intro key resp la h0
    by_cases hk : truthyS key = true
    · simp [geocode_address, hk, azureLoop, h0, truthyF]
    · simp at hk
      simp [geocode_address, hk]

/-- Witness for C1 at a concrete environment where no state fires. -/
theorem C1_priority_chain_witness :
    geocode_incident envLima none none none none none none
      = { lat := none, lon := none, nivel := none, adm4 := none } :=
  (C1_priority_chain envLima none none none none none none
      (by simp [envLima, gazLima])).2.2.2.2.2.2
    (by simp [state1Fires, truthyF])
    (by simp [state2Fires, envLima])
    (by simp [state3Fires, normalize_text])
    (by simp [state4Fires, normalize_text])
    (by simp [state5Fires, normalize_text])
    (by simp [state6Fires, truthyF])

/-- Witness for C7: a geocoder that times out twice and succeeds on the
third attempt still returns its coordinate. -/
theorem C7_retry_policy_witness :
    geocode_address (some "key") respTimeoutTwice
      = (some (-12, -77), [1/2, 1]) :=
  (C7_retry_policy (some "key") respTimeoutTwice (by simp [truthyS])).1
    (-12) (-77)
    (by simp [respTimeoutTwice])
    (by simp [respTimeoutTwice])
    (by simp [respTimeoutTwice])
    (by norm_num)
    (by norm_num)

/-- Witness for the amended C8 at a concrete in-range input. -/
theorem C8_amended_witness :
    -90 ≤ (10 : ℚ) ∧ (10 : ℚ) ≤ 90 ∧ -180 ≤ (20 : ℚ) ∧ (20 : ℚ) ≤ 180 :=
  C8_amended envLima none none none none (some 10) (some 20)
    (by intro r hr; simp [envLima, gazLima] at hr; subst hr; norm_num)
    (fun x y hx hy => by cases hx; cases hy; norm_num)
    (fun a d q hq => by simp [envLima] at hq)
    10 20
    (by simp only [geocode_incident, envLima, gazLima]
        norm_num [normalize_text, is_adm4, truthyS, truthyF])
    (by simp only [geocode_incident, envLima, gazLima]
        norm_num [normalize_text, is_adm4, truthyS, truthyF])

/-- Witness for C10 at concrete zero-coordinate inputs. -/
theorem C10_zero_coordinate_falsy_witness :
    (geocode_incident envLima none none none none (some 0) (some 5)).nivel
        ≠ some Nivel.especifico
      ∧ (geocode_address (some "k") respZeroLat).1 = none :=
  ⟨(C10_zero_coordinate_falsy.1 envLima none none none none (some 5)).1,
   C10_zero_coordinate_falsy.2.2.1 (some "k") respZeroLat (some 5) rfl⟩

end Koru
